import Mathlib

/-!
Verification of the patient-vitals streaming repository.

The validator under study is `ParseAndValidate.process` in
`dataflow/streamingpipeline.py`; the generator's error injection and the
startup configuration checks come from `simulator1/patient_vitals.py` and
the module-level environment check of the pipeline file.

Modelling conventions:
* Parsed JSON values are the inductive `Json`; Python floats are modelled
  as rationals (`Rat`).  Non-finite float literals (`inf`, `nan`) are
  modelled as coercion failures; in the source they coerce and are then
  rejected by the range checks, so the observable accept/drop outcome is
  identical.
* The UTF-8 decode plus `json.loads` stage is a deterministic library
  call; the validator is modelled on its outcome: `none` when decoding or
  parsing raises, `some j` when it yields the value `j`.
* Python exceptions raised inside the `try` block are modelled with
  `Except PyExc`; the `except Exception: return` handler is the final
  `match` in `process`.
* Reading the clock for `ingest_ts` happens once at the start of the call
  (line 31); it is passed in as the `ingest_ts` argument.
-/

/-- The exception classes the validator body can raise; all of them derive
from Python's `Exception` and are therefore caught by the handler. -/
inductive PyExc where
  | valueError
  | typeError
  | keyError
  deriving DecidableEq

/-- Parsed JSON values as produced by `json.loads`: objects become dicts
(association lists, later binding wins, as Python keeps the last duplicate
key), numbers become `int` or `float`, and `true`/`false` become `bool`
(which in Python is a subclass of `int`). -/
inductive Json where
  | null
  | bool (b : Bool)
  | int (n : Int)
  | float (q : Rat)
  | str (s : String)
  | arr (xs : List Json)
  | obj (kvs : List (String × Json))

/-- `d[k]` lookup in a Python dict built from an association list: the
last binding for a key wins. -/
def getKey : List (String × Json) → String → Option Json
  | [], _ => none
  | (k', v) :: rest, k =>
    match getKey rest k with
    | some w => some w
    | none => if k' = k then some v else none

/-- `k in d` for a Python dict. -/
def containsKey (kvs : List (String × Json)) (k : String) : Bool :=
  (getKey kvs k).isSome

/-- `d.pop(k, None)`: remove every binding of `k`. -/
def eraseKey (kvs : List (String × Json)) (k : String) : List (String × Json) :=
  kvs.filter (fun p => p.1 ≠ k)

/-- `d[k] = v`: dict update (observable only through `getKey`). -/
def setKey (kvs : List (String × Json)) (k : String) (v : Json) : List (String × Json) :=
  eraseKey kvs k ++ [(k, v)]

/-! ### Python numeric-string parsing -/

/-- Whitespace stripped by Python's `str.strip` / numeric constructors. -/
def isPySpace (c : Char) : Bool :=
  c = ' ' || c = '\t' || c = '\n' || c = '\r' || c = '\x0b' || c = '\x0c'

def dropSpaces : List Char → List Char
  | [] => []
  | c :: cs => if isPySpace c then dropSpaces cs else c :: cs

/-- Strip leading and trailing whitespace. -/
def trimChars (cs : List Char) : List Char :=
  (dropSpaces (dropSpaces cs.reverse).reverse)

/-- Split an optional leading `+`/`-` sign; returns the sign as `1`/`-1`. -/
def splitSign : List Char → Int × List Char
  | [] => (1, [])
  | c :: cs =>
    if c = '-' then (-1, cs)
    else if c = '+' then (1, cs)
    else (1, c :: cs)

def digitVal (c : Char) : Nat := c.toNat - '0'.toNat

def digitsVal (cs : List Char) : Nat :=
  cs.foldl (fun acc c => acc * 10 + digitVal c) 0

def allDigits (cs : List Char) : Bool :=
  cs.all (fun c => c.isDigit)

/-- Python `int(s)` on a string: optional surrounding whitespace, optional
sign, then a nonempty run of decimal digits; anything else raises
`ValueError`. -/
def parseIntStr (s : String) : Option Int :=
  let cs := trimChars s.toList
  let (sign, body) := splitSign cs
  if body ≠ [] ∧ allDigits body then some (sign * (digitsVal body : Int)) else none

/-- Longest prefix of decimal digits and the remainder. -/
def readDigits : List Char → List Char × List Char
  | [] => ([], [])
  | c :: cs =>
    if c.isDigit then
      let (ds, rest) := readDigits cs
      (c :: ds, rest)
    else ([], c :: cs)

def pow10 (n : Nat) : Rat := (10 : Rat) ^ n

/-- Parse the mantissa `digits [. digits]` of a Python float literal;
returns its value and the remainder, requiring at least one digit. -/
def parseMantissa (cs : List Char) : Option (Rat × List Char) :=
  let (ip, rest1) := readDigits cs
  match rest1 with
  | '.' :: rest2 =>
    let (fp, rest3) := readDigits rest2
    if ip = [] ∧ fp = [] then none
    else some (((digitsVal ip : Rat) + (digitsVal fp : Rat) / pow10 fp.length), rest3)
  | _ =>
    if ip = [] then none else some (((digitsVal ip : Rat)), rest1)

/-- Parse the optional exponent `e[sign]digits` (or nothing). -/
def parseExponent : List Char → Option Int
  | [] => some 0
  | c :: cs =>
    if c = 'e' ∨ c = 'E' then
      let (sign, body) := splitSign cs
      if body ≠ [] ∧ allDigits body then some (sign * (digitsVal body : Int)) else none
    else none

def applyExp (q : Rat) (e : Int) : Rat :=
  if 0 ≤ e then q * pow10 e.toNat else q / pow10 ((-e).toNat)

/-- Python `float(s)` on a finite decimal literal: optional whitespace and
sign, mantissa, optional exponent.  Non-finite literals are modelled as
failures (see the header comment). -/
def parseFloatStr (s : String) : Option Rat :=
  let cs := trimChars s.toList
  let (sign, body) := splitSign cs
  match parseMantissa body with
  | none => none
  | some (m, rest) =>
    match parseExponent rest with
    | none => none
    | some e => some ((sign : Rat) * applyExp m e)

/-- Truncation toward zero, as Python `int(float)`. -/
def ratTrunc (q : Rat) : Int :=
  if q < 0 then -(Rat.floor (-q)) else Rat.floor q

/-! ### Python coercions and container operations -/

/-- Python `int(x)` on a parsed JSON value.  `bool` is an `int` subclass,
so `int(True) = 1`; `None`, lists and dicts raise `TypeError`;
non-integer strings raise `ValueError`. -/
def pyInt : Json → Except PyExc Int
  | .int n => .ok n
  | .float q => .ok (ratTrunc q)
  | .bool b => .ok (if b then 1 else 0)
  | .str s =>
    match parseIntStr s with
    | some n => .ok n
    | none => .error .valueError
  | .null => .error .typeError
  | .arr _ => .error .typeError
  | .obj _ => .error .typeError

/-- Python `float(x)` on a parsed JSON value. -/
def pyFloat : Json → Except PyExc Rat
  | .int n => .ok (n : Rat)
  | .float q => .ok q
  | .bool b => .ok (if b then 1 else 0)
  | .str s =>
    match parseFloatStr s with
    | some q => .ok q
    | none => .error .valueError
  | .null => .error .typeError
  | .arr _ => .error .typeError
  | .obj _ => .error .typeError

def startsWithL : List Char → List Char → Bool
  | [], _ => true
  | _ :: _, [] => false
  | a :: as, b :: bs => a == b && startsWithL as bs

/-- Substring test, Python `k in s` for strings. -/
def hasSubL (pat : List Char) : List Char → Bool
  | [] => pat.isEmpty
  | b :: bs => startsWithL pat (b :: bs) || hasSubL pat bs

/-- Python `k in obj` where `k` is a string: key membership for dicts,
element equality for lists, substring for strings, `TypeError`
otherwise. -/
def pyContains (j : Json) (k : String) : Except PyExc Bool :=
  match j with
  | .obj kvs => .ok (containsKey kvs k)
  | .arr xs => .ok (xs.any (fun x => match x with | .str s => s == k | _ => false))
  | .str s => .ok (hasSubL k.toList s.toList)
  | _ => .error .typeError

/-- Python `obj[k]` where `k` is a string: dict lookup (raising `KeyError`
when absent), `TypeError` for every other value. -/
def pyIndex (j : Json) (k : String) : Except PyExc Json :=
  match j with
  | .obj kvs =>
    match getKey kvs k with
    | some v => .ok v
    | none => .error .keyError
  | _ => .error .typeError

/-- The `required` list of `ParseAndValidate.process`, in source order. -/
def requiredKeys : List String :=
  [ "event_ts", "patient_id", "heart_rate", "temperature",
    "bp_diastolic", "bp_systolic", "spo2" ]

/-- `all(k in obj for k in ks)`: short-circuits on the first `False`,
propagates the first exception. -/
def allContains (j : Json) : List String → Except PyExc Bool
  | [] => .ok true
  | k :: ks =>
    match pyContains j k with
    | .error e => .error e
    | .ok true => allContains j ks
    | .ok false => .ok false

/-- The accepted row: the eight keys of the `row` dict in source order.
`event_ts` is copied verbatim (any JSON value); `ingest_ts` is the
timestamp string taken at the start of the call. -/
structure VitalsRecord where
  event_ts : Json
  patient_id : Int
  heart_rate : Int
  temperature : Rat
  bp_diastolic : Int
  bp_systolic : Int
  spo2 : Int
  ingest_ts : String

/-- The body of the `try` block of `ParseAndValidate.process`
(lines 33-71): decode/parse (represented by its outcome `o`), the
required-keys check, the type casts in dict-literal order, and the six
range checks in source order.  `Except.error` marks a raised exception,
`.ok none` a `return`, `.ok (some r)` a `yield row`. -/
def processBody (o : Option Json) (ingest_ts : String) : Except PyExc (Option VitalsRecord) :=
  match o with
  | none => .error .valueError
  | some obj =>
    match allContains obj requiredKeys with
    | .error e => .error e
    | .ok false => .ok none
    | .ok true =>
      match pyIndex obj "event_ts" with
      | .error e => .error e
      | .ok v_ts =>
      match pyIndex obj "patient_id" with
      | .error e => .error e
      | .ok v_pid =>
      match pyInt v_pid with
      | .error e => .error e
      | .ok pid =>
      match pyIndex obj "heart_rate" with
      | .error e => .error e
      | .ok v_hr =>
      match pyInt v_hr with
      | .error e => .error e
      | .ok hr =>
      match pyIndex obj "temperature" with
      | .error e => .error e
      | .ok v_tmp =>
      match pyFloat v_tmp with
      | .error e => .error e
      | .ok temp =>
      match pyIndex obj "bp_diastolic" with
      | .error e => .error e
      | .ok v_bd =>
      match pyInt v_bd with
      | .error e => .error e
      | .ok bd =>
      match pyIndex obj "bp_systolic" with
      | .error e => .error e
      | .ok v_bs =>
      match pyInt v_bs with
      | .error e => .error e
      | .ok bs =>
      match pyIndex obj "spo2" with
      | .error e => .error e
      | .ok v_sp =>
      match pyInt v_sp with
      | .error e => .error e
      | .ok sp =>
      if 0 < pid ∧ pid ≤ 10000 then
        if 30 ≤ hr ∧ hr ≤ 220 then
          if 85 ≤ temp ∧ temp ≤ 110 then
            if 30 ≤ bd ∧ bd ≤ 150 then
              if 50 ≤ bs ∧ bs ≤ 250 then
                if 50 ≤ sp ∧ sp ≤ 100 then
                  .ok (some
                    { event_ts := v_ts, patient_id := pid, heart_rate := hr,
                      temperature := temp, bp_diastolic := bd, bp_systolic := bs,
                      spo2 := sp, ingest_ts := ingest_ts })
                else .ok none
              else .ok none
            else .ok none
          else .ok none
        else .ok none
      else .ok none

/-- `ParseAndValidate.process` as observed by the runtime: the
`except Exception: return` handler (lines 73-75) turns every raised
exception into no output. -/
def process (o : Option Json) (ingest_ts : String) : Option VitalsRecord :=
  match processBody o ingest_ts with
  | .error _ => none
  | .ok r => r

/-! ### Startup configuration (pipeline module level and simulator `main`) -/

/-- The distinct startup diagnostics (`raise SystemExit(...)` sites). -/
inductive ConfigError where
  | missingEnvVars
  | badPatientCount
  | badStreamInterval
  | badErrorRate
  | badErrorMode
  | badMissingFieldStyle
  deriving DecidableEq

/-- Module-level check of `streamingpipeline.py` (lines 7-11): `os.getenv`
defaults both variables to the empty string, which is falsy, so the job
exits unless both are nonempty. -/
def pipelineStartup (sub table : String) : Except ConfigError (String × String) :=
  if sub = "" ∨ table = "" then .error .missingEnvVars else .ok (sub, table)

/-- The `ERROR_MODE` domain of `patient_vitals.py`. -/
def errorModes : List String :=
  [ "mixed", "none", "missing_field", "null_field", "negative_value",
    "out_of_range", "bad_type" ]

/-- The `MISSING_FIELD_STYLE` domain of `patient_vitals.py`. -/
def missingFieldStyles : List String := [ "delete", "null" ]

/-- A Python float as produced by `float(os.getenv(...))`: a finite value
(as a rational), an infinity, or NaN.  `float("nan")` and `float("inf")`
are accepted by the bare `float()` call on line 179 and by
`_get_env_float`, so the generator's settings range over this type, not
over finite values only. -/
inductive PyFloat where
  | finite (q : Rat)
  | inf
  | ninf
  | nan
  deriving DecidableEq

/-- IEEE-754 / Python `<=` on floats: every comparison with NaN is
false. -/
def pyLe : PyFloat → PyFloat → Bool
  | .nan, _ => false
  | _, .nan => false
  | .ninf, _ => true
  | _, .ninf => false
  | _, .inf => true
  | .inf, _ => false
  | .finite a, .finite b => decide (a ≤ b)

/-- IEEE-754 / Python `<` on floats: every comparison with NaN is
false. -/
def pyLt : PyFloat → PyFloat → Bool
  | .nan, _ => false
  | _, .nan => false
  | .ninf, .ninf => false
  | .ninf, _ => true
  | _, .ninf => false
  | .inf, _ => false
  | _, .inf => true
  | .finite a, .finite b => decide (a < b)

/-- The fail-fast validation at the top of `main` in `patient_vitals.py`
(lines 184-193), applied to the already parsed and lower-cased settings,
in source order.  `stream_interval` and `error_rate` are Python floats,
compared with Python float ordering: the interval check is literally
`stream_interval <= 0`, which is false for NaN. -/
def simStartupChecks (patient_count : Int) (stream_interval error_rate : PyFloat)
    (error_mode missing_field_style : String) : Except ConfigError Unit :=
  if patient_count ≤ 0 then .error .badPatientCount
  else if pyLe stream_interval (.finite 0) then .error .badStreamInterval
  else if ¬(pyLe (.finite 0) error_rate = true ∧ pyLe error_rate (.finite 1) = true) then
    .error .badErrorRate
  else if ¬(error_mode ∈ errorModes) then .error .badErrorMode
  else if ¬(missing_field_style ∈ missingFieldStyles) then .error .badMissingFieldStyle
  else .ok ()

/-! ### The generator's error-injection strategies (`inject_error`) -/

/-- `required_fields` of `inject_error`, in its source order (same set as
`requiredKeys`). -/
def simRequiredFields : List String :=
  [ "patient_id", "event_ts", "heart_rate", "temperature", "bp_systolic",
    "bp_diastolic", "spo2" ]

/-- `missing_field` strategy with style `delete`: `record.pop(field, None)`. -/
def injectDeleteField (kvs : List (String × Json)) (field : String) : List (String × Json) :=
  eraseKey kvs field

/-- `null_field` strategy (also `missing_field` with style `null`):
`record[field] = None`. -/
def injectNullField (kvs : List (String × Json)) (field : String) : List (String × Json) :=
  setKey kvs field .null

/-- `negative_value` strategy: `record["heart_rate"] = -1`. -/
def injectNegativeValue (kvs : List (String × Json)) : List (String × Json) :=
  setKey kvs "heart_rate" (.int (-1))

/-- `out_of_range` strategy: `record["spo2"] = 150`. -/
def injectOutOfRange (kvs : List (String × Json)) : List (String × Json) :=
  setKey kvs "spo2" (.int 150)

/-- `bad_type` strategy: `record["bp_systolic"] = "one-sixty"`. -/
def injectBadType (kvs : List (String × Json)) : List (String × Json) :=
  setKey kvs "bp_systolic" (.str "one-sixty")

/-! ### Concrete payloads -/

/-- The end-to-end example payload of the spec, section 8 (`98.6 = 493/5`). -/
def exampleKvs : List (String × Json) :=
  [ ("event_ts", .str "2024-01-01T00:00:00Z"),
    ("patient_id", .int 5),
    ("heart_rate", .int 80),
    ("temperature", .float (Rat.divInt 493 5)),
    ("bp_diastolic", .int 70),
    ("bp_systolic", .int 120),
    ("spo2", .int 97) ]

def exampleObj : Json := .obj exampleKvs

/-- The record the validator produces for `exampleObj` at clock reading `t`. -/
def exampleRecord (t : String) : VitalsRecord :=
  { event_ts := .str "2024-01-01T00:00:00Z", patient_id := 5, heart_rate := 80,
    temperature := Rat.divInt 493 5, bp_diastolic := 70, bp_systolic := 120, spo2 := 97,
    ingest_ts := t }

/-- Top-level JSON value is an object (`json.loads` produced a dict). -/
def Json.isObj : Json → Bool
  | .obj _ => true
  | _ => false

/-- The five fields the validator casts with `int(...)` (source order). -/
def intCoercedFields : List String :=
  [ "patient_id", "heart_rate", "bp_diastolic", "bp_systolic", "spo2" ]

/-- The computation ended in a raised `SystemExit` (startup diagnostic). -/
def isErr {α β : Type} : Except α β → Bool
  | .error _ => true
  | .ok _ => false

/-! ### Helper lemmas about the dict model -/

lemma getKey_append (xs ys : List (String × Json)) (k : String) :
    getKey (xs ++ ys) k =
      match getKey ys k with
      | some w => some w
      | none => getKey xs k := by
  induction xs with
  | nil => cases h : getKey ys k <;> simp [getKey, h]
  | cons p xs ih =>
    obtain ⟨k0, v⟩ := p
    simp only [List.cons_append, getKey, List.append_eq]
    rw [ih]
    cases h : getKey ys k <;> cases h2 : getKey xs k <;> simp [h, h2]

lemma getKey_eraseKey (kvs : List (String × Json)) (k k' : String) :
    getKey (eraseKey kvs k) k' = if k' = k then none else getKey kvs k' := by
  induction kvs with
  | nil => simp [eraseKey, getKey]
  | cons p kvs ih =>
    obtain ⟨k0, v⟩ := p
    by_cases hk : k0 = k
    · subst hk
      have he : eraseKey ((k0, v) :: kvs) k0 = eraseKey kvs k0 := by
        simp [eraseKey, List.filter_cons]
      rw [he, ih]
      by_cases hk' : k' = k0
      · simp [hk']
      · rw [if_neg hk', if_neg hk']
        have hne : k0 ≠ k' := fun h => hk' h.symm
        cases h2 : getKey kvs k' <;> simp [getKey, h2, hne]
    · have he : eraseKey ((k0, v) :: kvs) k = (k0, v) :: eraseKey kvs k := by
        simp [eraseKey, List.filter_cons, hk]
      rw [he]
      simp only [getKey, ih]
      by_cases hk' : k' = k
      · rw [if_pos hk', if_pos hk']
        have hne : k0 ≠ k' := by rw [hk']; exact hk
        simp [hne]
      · rw [if_neg hk', if_neg hk']

lemma allContains_fn (j : Json) (f : String → Bool)
    (hf : ∀ k, pyContains j k = .ok (f k)) :
    ∀ ks : List String, allContains j ks = .ok (ks.all f) := by
  intro ks
  induction ks with
  | nil => simp [allContains]
  | cons k ks ih =>
    unfold allContains
    rw [hf k]
    cases hfk : f k <;> simp [hfk, ih]

lemma allContains_obj (kvs : List (String × Json)) (ks : List String) :
    allContains (.obj kvs) ks = .ok (ks.all (fun k => containsKey kvs k)) :=
  allContains_fn (Json.obj kvs) (fun k => containsKey kvs k) (fun _ => rfl) ks

lemma allContains_str (s : String) (ks : List String) :
    allContains (.str s) ks = .ok (ks.all (fun k => hasSubL k.toList s.toList)) :=
  allContains_fn (Json.str s) (fun k => hasSubL k.toList s.toList) (fun _ => rfl) ks

lemma allContains_arr (xs : List Json) (ks : List String) :
    allContains (.arr xs) ks =
      .ok (ks.all (fun k =>
        xs.any (fun x => match x with | .str s => s == k | _ => false))) :=
  allContains_fn (Json.arr xs)
    (fun k => xs.any (fun x => match x with | .str s => s == k | _ => false))
    (fun _ => rfl) ks

lemma pyIndex_ok_shape {j : Json} {k : String} {v : Json}
    (h : pyIndex j k = .ok v) :
    ∃ kvs, j = Json.obj kvs ∧ getKey kvs k = some v := by
  cases j with
  | obj kvs =>
    refine ⟨kvs, rfl, ?_⟩
    cases hg : getKey kvs k with
    | none => simp [pyIndex, hg] at h
    | some w => simp [pyIndex, hg] at h; rw [h]
  | null => simp [pyIndex] at h
  | bool b => simp [pyIndex] at h
  | int n => simp [pyIndex] at h
  | float q => simp [pyIndex] at h
  | str s => simp [pyIndex] at h
  | arr xs => simp [pyIndex] at h

lemma pyIndex_obj_of_getKey {kvs : List (String × Json)} {k : String} {v : Json}
    (h : getKey kvs k = some v) : pyIndex (.obj kvs) k = .ok v := by
  simp [pyIndex, h]

lemma pyIndex_obj_iff {kvs : List (String × Json)} {k : String} {v : Json} :
    pyIndex (.obj kvs) k = .ok v ↔ getKey kvs k = some v := by
  constructor
  · intro h
    obtain ⟨kvs2, he, hg⟩ := pyIndex_ok_shape h
    injection he with he2
    rw [he2]
    exact hg
  · exact pyIndex_obj_of_getKey

lemma getKey_setKey (kvs : List (String × Json)) (k : String) (v : Json) (k' : String) :
    getKey (setKey kvs k v) k' = if k' = k then some v else getKey kvs k' := by
  unfold setKey
  rw [getKey_append]
  by_cases h : k' = k
  · subst h
    simp [getKey]
  · have hne : k ≠ k' := fun hh => h hh.symm
    have h1 : getKey [(k, v)] k' = none := by simp [getKey, hne]
    rw [h1]
    show getKey (eraseKey kvs k) k' = _
    rw [getKey_eraseKey, if_neg h, if_neg h]

/-- A record with all seven keys, successful coercions and in-range values
is accepted; the `event_ts` value flows through verbatim and `ingest_ts`
is the clock reading. -/
lemma accept_of_valid
    (kvs : List (String × Json)) (t : String)
    (vts vpid vhr vtmp vbd vbs vsp : Json)
    (pid hr bd bs sp : Int) (temp : Rat)
    (hts : getKey kvs "event_ts" = some vts)
    (hpid : getKey kvs "patient_id" = some vpid)
    (hhr : getKey kvs "heart_rate" = some vhr)
    (htmp : getKey kvs "temperature" = some vtmp)
    (hbd : getKey kvs "bp_diastolic" = some vbd)
    (hbs : getKey kvs "bp_systolic" = some vbs)
    (hsp : getKey kvs "spo2" = some vsp)
    (cpid : pyInt vpid = .ok pid) (chr : pyInt vhr = .ok hr)
    (ctmp : pyFloat vtmp = .ok temp) (cbd : pyInt vbd = .ok bd)
    (cbs : pyInt vbs = .ok bs) (csp : pyInt vsp = .ok sp)
    (rpid : 0 < pid ∧ pid ≤ 10000) (rhr : 30 ≤ hr ∧ hr ≤ 220)
    (rtmp : 85 ≤ temp ∧ temp ≤ 110) (rbd : 30 ≤ bd ∧ bd ≤ 150)
    (rbs : 50 ≤ bs ∧ bs ≤ 250) (rsp : 50 ≤ sp ∧ sp ≤ 100) :
    process (some (.obj kvs)) t =
      some { event_ts := vts, patient_id := pid, heart_rate := hr, temperature := temp,
             bp_diastolic := bd, bp_systolic := bs, spo2 := sp, ingest_ts := t } := by
  have hall : allContains (.obj kvs) requiredKeys = .ok true := by
    rw [allContains_obj]
    simp [requiredKeys, containsKey, hts, hpid, hhr, htmp, hbd, hbs, hsp]
  simp only [process, processBody, hall, pyIndex_obj_of_getKey hts,
    pyIndex_obj_of_getKey hpid, cpid, pyIndex_obj_of_getKey hhr, chr,
    pyIndex_obj_of_getKey htmp, ctmp, pyIndex_obj_of_getKey hbd, cbd,
    pyIndex_obj_of_getKey hbs, cbs, pyIndex_obj_of_getKey hsp, csp]
  rw [if_pos rpid, if_pos rhr, if_pos rtmp, if_pos rbd, if_pos rbs, if_pos rsp]

/-- Inversion: every accepted record comes from a JSON object whose seven
required keys are present, whose six numeric values coerce to the record's
fields, and whose coerced values pass all six range checks; `event_ts` is
the looked-up value and `ingest_ts` the clock reading. -/
lemma accept_inversion (o : Option Json) (t : String) (r : VitalsRecord)
    (h : process o t = some r) :
    ∃ kvs vts vpid vhr vtmp vbd vbs vsp,
      o = some (Json.obj kvs) ∧
      getKey kvs "event_ts" = some vts ∧
      getKey kvs "patient_id" = some vpid ∧
      getKey kvs "heart_rate" = some vhr ∧
      getKey kvs "temperature" = some vtmp ∧
      getKey kvs "bp_diastolic" = some vbd ∧
      getKey kvs "bp_systolic" = some vbs ∧
      getKey kvs "spo2" = some vsp ∧
      pyInt vpid = .ok r.patient_id ∧
      pyInt vhr = .ok r.heart_rate ∧
      pyFloat vtmp = .ok r.temperature ∧
      pyInt vbd = .ok r.bp_diastolic ∧
      pyInt vbs = .ok r.bp_systolic ∧
      pyInt vsp = .ok r.spo2 ∧
      r.event_ts = vts ∧ r.ingest_ts = t ∧
      (0 < r.patient_id ∧ r.patient_id ≤ 10000) ∧
      (30 ≤ r.heart_rate ∧ r.heart_rate ≤ 220) ∧
      (85 ≤ r.temperature ∧ r.temperature ≤ 110) ∧
      (30 ≤ r.bp_diastolic ∧ r.bp_diastolic ≤ 150) ∧
      (50 ≤ r.bp_systolic ∧ r.bp_systolic ≤ 250) ∧
      (50 ≤ r.spo2 ∧ r.spo2 ≤ 100) := by
  unfold process at h
  split at h
  · exact absurd h (by simp)
  rename_i val hpb
  subst h
  unfold processBody at hpb
  repeat' split at hpb
  all_goals try exact Except.noConfusion hpb
  all_goals try exact Option.noConfusion (Except.ok.inj hpb)
  have hrec := Option.some.inj (Except.ok.inj hpb)
  subst hrec
  rename_i x14 oX obj x13 hall x12 vts hts x11 vpid hpid x10 pid cpid x9 vhr hhr
    x8 hr chr x7 vtmp htmp x6 temp ctmp x5 vbd hbd x4 bd cbd x3 vbs hbs x2 bs cbs
    x1 vsp hsp x0 sp csp c1 c2 c3 c4 c5 c6
  obtain ⟨kvs, rfl, gts⟩ := pyIndex_ok_shape hts
  exact ⟨kvs, vts, vpid, vhr, vtmp, vbd, vbs, vsp, rfl, gts,
    pyIndex_obj_iff.mp hpid, pyIndex_obj_iff.mp hhr, pyIndex_obj_iff.mp htmp,
    pyIndex_obj_iff.mp hbd, pyIndex_obj_iff.mp hbs, pyIndex_obj_iff.mp hsp,
    cpid, chr, ctmp, cbd, cbs, csp, rfl, rfl, c1, c2, c3, c4, c5, c6⟩

lemma getKey_setKey_ne {kvs : List (String × Json)} {k : String} {v : Json} {k' : String}
    (h : k' ≠ k) : getKey (setKey kvs k v) k' = getKey kvs k' := by
  rw [getKey_setKey, if_neg h]

lemma getKey_setKey_self (kvs : List (String × Json)) (k : String) (v : Json) :
    getKey (setKey kvs k v) k = some v := by
  rw [getKey_setKey, if_pos rfl]

lemma requiredAll_false_of_missing {kvs : List (String × Json)} {k : String}
    (hk : k ∈ requiredKeys) (h : containsKey kvs k = false) :
    requiredKeys.all (fun k' => containsKey kvs k') = false := by
  cases hb : requiredKeys.all (fun k' => containsKey kvs k') with
  | false => rfl
  | true =>
    have hb2 := List.all_eq_true.mp hb k hk
    rw [h] at hb2
    exact Bool.noConfusion hb2

/-- A required key absent from the dict makes the presence check fail,
so the validator returns nothing. -/
lemma drop_of_missing (kvs : List (String × Json)) (t : String) (k : String)
    (hk : k ∈ requiredKeys) (h : containsKey kvs k = false) :
    process (some (.obj kvs)) t = none := by
  have hall : allContains (.obj kvs) requiredKeys = .ok false := by
    rw [allContains_obj, requiredAll_false_of_missing hk h]
  simp [process, processBody, hall]

/-- `accept_inversion` specialised to an object input. -/
lemma accept_inversion_obj (kvs : List (String × Json)) (t : String) (r : VitalsRecord)
    (h : process (some (.obj kvs)) t = some r) :
    ∃ vts vpid vhr vtmp vbd vbs vsp,
      getKey kvs "event_ts" = some vts ∧
      getKey kvs "patient_id" = some vpid ∧
      getKey kvs "heart_rate" = some vhr ∧
      getKey kvs "temperature" = some vtmp ∧
      getKey kvs "bp_diastolic" = some vbd ∧
      getKey kvs "bp_systolic" = some vbs ∧
      getKey kvs "spo2" = some vsp ∧
      pyInt vpid = .ok r.patient_id ∧
      pyInt vhr = .ok r.heart_rate ∧
      pyFloat vtmp = .ok r.temperature ∧
      pyInt vbd = .ok r.bp_diastolic ∧
      pyInt vbs = .ok r.bp_systolic ∧
      pyInt vsp = .ok r.spo2 ∧
      r.event_ts = vts ∧ r.ingest_ts = t ∧
      (0 < r.patient_id ∧ r.patient_id ≤ 10000) ∧
      (30 ≤ r.heart_rate ∧ r.heart_rate ≤ 220) ∧
      (85 ≤ r.temperature ∧ r.temperature ≤ 110) ∧
      (30 ≤ r.bp_diastolic ∧ r.bp_diastolic ≤ 150) ∧
      (50 ≤ r.bp_systolic ∧ r.bp_systolic ≤ 250) ∧
      (50 ≤ r.spo2 ∧ r.spo2 ≤ 100) := by
  obtain ⟨kvs2, vts, vpid, vhr, vtmp, vbd, vbs, vsp, ho, rest⟩ :=
    accept_inversion (some (.obj kvs)) t r h
  injection ho with ho1
  injection ho1 with ho2
  subst ho2
  exact ⟨vts, vpid, vhr, vtmp, vbd, vbs, vsp, rest⟩

/-- Re-running the validator on the same parse outcome with a different
clock reading yields the same record up to `ingest_ts`. -/
lemma accept_retime (o : Option Json) (t1 t2 : String) (r1 : VitalsRecord)
    (h : process o t1 = some r1) :
    process o t2 =
      some { event_ts := r1.event_ts, patient_id := r1.patient_id,
             heart_rate := r1.heart_rate, temperature := r1.temperature,
             bp_diastolic := r1.bp_diastolic, bp_systolic := r1.bp_systolic,
             spo2 := r1.spo2, ingest_ts := t2 } := by
  obtain ⟨kvs, vts, vpid, vhr, vtmp, vbd, vbs, vsp, ho, g1, g2, g3, g4, g5, g6, g7,
    c1, c2, c3, c4, c5, c6, hev, hin, q1, q2, q3, q4, q5, q6⟩ :=
    accept_inversion o t1 r1 h
  subst ho
  rw [hev]
  exact accept_of_valid kvs t2 vts vpid vhr vtmp vbd vbs vsp r1.patient_id
    r1.heart_rate r1.bp_diastolic r1.bp_systolic r1.spo2 r1.temperature
    g1 g2 g3 g4 g5 g6 g7 c1 c2 c3 c4 c5 c6 q1 q2 q3 q4 q5 q6

/-- An in-object `patient_id` whose coerced value fails its range check
forces a drop. -/
lemma drop_of_bad_patient_id (kvs : List (String × Json)) (t : String) (v : Json) (n : Int)
    (hv : getKey kvs "patient_id" = some v) (hc : pyInt v = .ok n)
    (hbad : ¬(0 < n ∧ n ≤ 10000)) :
    process (some (.obj kvs)) t = none := by
  cases hp : process (some (.obj kvs)) t with
  | none => rfl
  | some r =>
    exfalso
    obtain ⟨vts, vpid, vhr, vtmp, vbd, vbs, vsp, g1, g2, g3, g4, g5, g6, g7,
      c1, c2, c3, c4, c5, c6, hev, hin, q1, q2, q3, q4, q5, q6⟩ :=
      accept_inversion_obj kvs t r hp
    rw [hv] at g2
    injection g2 with gv
    subst gv
    rw [hc] at c1
    injection c1 with cn
    subst cn
    exact hbad q1

lemma drop_of_bad_heart_rate (kvs : List (String × Json)) (t : String) (v : Json) (n : Int)
    (hv : getKey kvs "heart_rate" = some v) (hc : pyInt v = .ok n)
    (hbad : ¬(30 ≤ n ∧ n ≤ 220)) :
    process (some (.obj kvs)) t = none := by
  cases hp : process (some (.obj kvs)) t with
  | none => rfl
  | some r =>
    exfalso
    obtain ⟨vts, vpid, vhr, vtmp, vbd, vbs, vsp, g1, g2, g3, g4, g5, g6, g7,
      c1, c2, c3, c4, c5, c6, hev, hin, q1, q2, q3, q4, q5, q6⟩ :=
      accept_inversion_obj kvs t r hp
    rw [hv] at g3
    injection g3 with gv
    subst gv
    rw [hc] at c2
    injection c2 with cn
    subst cn
    exact hbad q2

lemma drop_of_bad_temperature (kvs : List (String × Json)) (t : String) (v : Json) (q : Rat)
    (hv : getKey kvs "temperature" = some v) (hc : pyFloat v = .ok q)
    (hbad : ¬(85 ≤ q ∧ q ≤ 110)) :
    process (some (.obj kvs)) t = none := by
  cases hp : process (some (.obj kvs)) t with
  | none => rfl
  | some r =>
    exfalso
    obtain ⟨vts, vpid, vhr, vtmp, vbd, vbs, vsp, g1, g2, g3, g4, g5, g6, g7,
      c1, c2, c3, c4, c5, c6, hev, hin, q1, q2, q3, q4, q5, q6⟩ :=
      accept_inversion_obj kvs t r hp
    rw [hv] at g4
    injection g4 with gv
    subst gv
    rw [hc] at c3
    injection c3 with cn
    subst cn
    exact hbad q3

lemma drop_of_bad_bp_diastolic (kvs : List (String × Json)) (t : String) (v : Json) (n : Int)
    (hv : getKey kvs "bp_diastolic" = some v) (hc : pyInt v = .ok n)
    (hbad : ¬(30 ≤ n ∧ n ≤ 150)) :
    process (some (.obj kvs)) t = none := by
  cases hp : process (some (.obj kvs)) t with
  | none => rfl
  | some r =>
    exfalso
    obtain ⟨vts, vpid, vhr, vtmp, vbd, vbs, vsp, g1, g2, g3, g4, g5, g6, g7,
      c1, c2, c3, c4, c5, c6, hev, hin, q1, q2, q3, q4, q5, q6⟩ :=
      accept_inversion_obj kvs t r hp
    rw [hv] at g5
    injection g5 with gv
    subst gv
    rw [hc] at c4
    injection c4 with cn
    subst cn
    exact hbad q4

lemma drop_of_bad_bp_systolic (kvs : List (String × Json)) (t : String) (v : Json) (n : Int)
    (hv : getKey kvs "bp_systolic" = some v) (hc : pyInt v = .ok n)
    (hbad : ¬(50 ≤ n ∧ n ≤ 250)) :
    process (some (.obj kvs)) t = none := by
  cases hp : process (some (.obj kvs)) t with
  | none => rfl
  | some r =>
    exfalso
    obtain ⟨vts, vpid, vhr, vtmp, vbd, vbs, vsp, g1, g2, g3, g4, g5, g6, g7,
      c1, c2, c3, c4, c5, c6, hev, hin, q1, q2, q3, q4, q5, q6⟩ :=
      accept_inversion_obj kvs t r hp
    rw [hv] at g6
    injection g6 with gv
    subst gv
    rw [hc] at c5
    injection c5 with cn
    subst cn
    exact hbad q5

lemma drop_of_bad_spo2 (kvs : List (String × Json)) (t : String) (v : Json) (n : Int)
    (hv : getKey kvs "spo2" = some v) (hc : pyInt v = .ok n)
    (hbad : ¬(50 ≤ n ∧ n ≤ 100)) :
    process (some (.obj kvs)) t = none := by
  cases hp : process (some (.obj kvs)) t with
  | none => rfl
  | some r =>
    exfalso
    obtain ⟨vts, vpid, vhr, vtmp, vbd, vbs, vsp, g1, g2, g3, g4, g5, g6, g7,
      c1, c2, c3, c4, c5, c6, hev, hin, q1, q2, q3, q4, q5, q6⟩ :=
      accept_inversion_obj kvs t r hp
    rw [hv] at g7
    injection g7 with gv
    subst gv
    rw [hc] at c6
    injection c6 with cn
    subst cn
    exact hbad q6

/-- A raised coercion error on any of the five `int(...)` fields forces a
drop (the exception is caught by the outer handler). -/
lemma drop_of_int_coercion_failure (kvs : List (String × Json)) (t : String)
    (k : String) (v : Json) (e : PyExc) (hk : k ∈ intCoercedFields)
    (hv : getKey kvs k = some v) (hc : pyInt v = .error e) :
    process (some (.obj kvs)) t = none := by
  cases hp : process (some (.obj kvs)) t with
  | none => rfl
  | some r =>
    exfalso
    obtain ⟨vts, vpid, vhr, vtmp, vbd, vbs, vsp, g1, g2, g3, g4, g5, g6, g7,
      c1, c2, c3, c4, c5, c6, hev, hin, q1, q2, q3, q4, q5, q6⟩ :=
      accept_inversion_obj kvs t r hp
    simp only [intCoercedFields, List.mem_cons, List.not_mem_nil, or_false] at hk
    rcases hk with rfl | rfl | rfl | rfl | rfl
    · rw [hv] at g2
      injection g2 with gv
      subst gv
      rw [hc] at c1
      exact Except.noConfusion c1
    · rw [hv] at g3
      injection g3 with gv
      subst gv
      rw [hc] at c2
      exact Except.noConfusion c2
    · rw [hv] at g5
      injection g5 with gv
      subst gv
      rw [hc] at c4
      exact Except.noConfusion c4
    · rw [hv] at g6
      injection g6 with gv
      subst gv
      rw [hc] at c5
      exact Except.noConfusion c5
    · rw [hv] at g7
      injection g7 with gv
      subst gv
      rw [hc] at c6
      exact Except.noConfusion c6

/-- A raised coercion error on `float(obj["temperature"])` forces a drop. -/
lemma drop_of_float_coercion_failure (kvs : List (String × Json)) (t : String)
    (v : Json) (e : PyExc)
    (hv : getKey kvs "temperature" = some v) (hc : pyFloat v = .error e) :
    process (some (.obj kvs)) t = none := by
  cases hp : process (some (.obj kvs)) t with
  | none => rfl
  | some r =>
    exfalso
    obtain ⟨vts, vpid, vhr, vtmp, vbd, vbs, vsp, g1, g2, g3, g4, g5, g6, g7,
      c1, c2, c3, c4, c5, c6, hev, hin, q1, q2, q3, q4, q5, q6⟩ :=
      accept_inversion_obj kvs t r hp
    rw [hv] at g4
    injection g4 with gv
    subst gv
    rw [hc] at c3
    exact Except.noConfusion c3

/-! ### Claim theorems -/

/-- C1: for every input that parses to a JSON object containing all seven
required keys (extra keys ignored) whose six numeric values coerce and lie
in their closed intervals, `validate` returns exactly one VitalsRecord
whose fields equal the coerced input values, whose `event_ts` is the input
value, and whose `ingest_ts` equals the clock reading taken at the start
of the call (hence is not earlier than it); the section 8 example is the
witness. -/
theorem validate_accepts_all_valid_inputs
    (kvs : List (String × Json)) (t : String)
    (vts vpid vhr vtmp vbd vbs vsp : Json)
    (pid hr bd bs sp : Int) (temp : Rat)
    (hts : getKey kvs "event_ts" = some vts)
    (hpid : getKey kvs "patient_id" = some vpid)
    (hhr : getKey kvs "heart_rate" = some vhr)
    (htmp : getKey kvs "temperature" = some vtmp)
    (hbd : getKey kvs "bp_diastolic" = some vbd)
    (hbs : getKey kvs "bp_systolic" = some vbs)
    (hsp : getKey kvs "spo2" = some vsp)
    (cpid : pyInt vpid = .ok pid) (chr : pyInt vhr = .ok hr)
    (ctmp : pyFloat vtmp = .ok temp) (cbd : pyInt vbd = .ok bd)
    (cbs : pyInt vbs = .ok bs) (csp : pyInt vsp = .ok sp)
    (rpid : 1 ≤ pid ∧ pid ≤ 10000) (rhr : 30 ≤ hr ∧ hr ≤ 220)
    (rtmp : 85 ≤ temp ∧ temp ≤ 110) (rbd : 30 ≤ bd ∧ bd ≤ 150)
    (rbs : 50 ≤ bs ∧ bs ≤ 250) (rsp : 50 ≤ sp ∧ sp ≤ 100) :
    process (some (.obj kvs)) t =
      some { event_ts := vts, patient_id := pid, heart_rate := hr, temperature := temp,
             bp_diastolic := bd, bp_systolic := bs, spo2 := sp, ingest_ts := t } :=
  accept_of_valid kvs t vts vpid vhr vtmp vbd vbs vsp pid hr bd bs sp temp
    hts hpid hhr htmp hbd hbs hsp cpid chr ctmp cbd cbs csp
    ⟨by omega, rpid.2⟩ rhr rtmp rbd rbs rsp

theorem validate_accepts_all_valid_inputs_witness :
    process (some exampleObj) "2024-01-01T00:00:01Z" =
      some (exampleRecord "2024-01-01T00:00:01Z") :=
  validate_accepts_all_valid_inputs exampleKvs "2024-01-01T00:00:01Z"
    (.str "2024-01-01T00:00:00Z") (.int 5) (.int 80) (.float (Rat.divInt 493 5))
    (.int 70) (.int 120) (.int 97) 5 80 70 120 97 (Rat.divInt 493 5)
    rfl rfl rfl rfl rfl rfl rfl rfl rfl rfl rfl rfl rfl
    (by decide) (by decide) (by decide) (by decide) (by decide) (by decide)

/-- C2: whenever `validate` produces an output at all, it is a complete
VitalsRecord (all eight fields exist by construction of the record type)
and every bounded field lies in its closed interval; no partially-valid
record is ever emitted. -/
theorem validate_emits_only_complete_records (o : Option Json) (t : String)
    (r : VitalsRecord) (h : process o t = some r) :
    (1 ≤ r.patient_id ∧ r.patient_id ≤ 10000) ∧
    (30 ≤ r.heart_rate ∧ r.heart_rate ≤ 220) ∧
    (85 ≤ r.temperature ∧ r.temperature ≤ 110) ∧
    (30 ≤ r.bp_diastolic ∧ r.bp_diastolic ≤ 150) ∧
    (50 ≤ r.bp_systolic ∧ r.bp_systolic ≤ 250) ∧
    (50 ≤ r.spo2 ∧ r.spo2 ≤ 100) := by
  obtain ⟨kvs, vts, vpid, vhr, vtmp, vbd, vbs, vsp, ho, g1, g2, g3, g4, g5, g6, g7,
    c1, c2, c3, c4, c5, c6, hev, hin, q1, q2, q3, q4, q5, q6⟩ :=
    accept_inversion o t r h
  exact ⟨⟨by omega, q1.2⟩, q2, q3, q4, q5, q6⟩

theorem validate_emits_only_complete_records_witness :
    (1 ≤ (exampleRecord "T2").patient_id ∧ (exampleRecord "T2").patient_id ≤ 10000) ∧
    (30 ≤ (exampleRecord "T2").heart_rate ∧ (exampleRecord "T2").heart_rate ≤ 220) ∧
    (85 ≤ (exampleRecord "T2").temperature ∧ (exampleRecord "T2").temperature ≤ 110) ∧
    (30 ≤ (exampleRecord "T2").bp_diastolic ∧ (exampleRecord "T2").bp_diastolic ≤ 150) ∧
    (50 ≤ (exampleRecord "T2").bp_systolic ∧ (exampleRecord "T2").bp_systolic ≤ 250) ∧
    (50 ≤ (exampleRecord "T2").spo2 ∧ (exampleRecord "T2").spo2 ≤ 100) :=
  validate_emits_only_complete_records (some exampleObj) "T2" (exampleRecord "T2") rfl

/-- C3 counterexample: the claim says a boolean value makes the coercion
fail and the record get dropped, but Python's `bool` is an `int` subclass:
`int(True) = 1`, so the section 8 example with `patient_id := true` is
accepted with `patient_id = 1`, not dropped. -/
theorem validate_bool_patient_id_accepted_cex :
    process (some (.obj (setKey exampleKvs "patient_id" (.bool true)))) "T3" =
      some { event_ts := .str "2024-01-01T00:00:00Z", patient_id := 1, heart_rate := 80,
             temperature := Rat.divInt 493 5, bp_diastolic := 70, bp_systolic := 120,
             spo2 := 97, ingest_ts := "T3" } := rfl

/-- C3 (amended): if coercing any of the five integer fields or
`temperature` raises, the validator returns no output; non-numeric strings
and `null` do raise, but booleans coerce successfully (`True` to `1`,
`False` to `0`) instead of failing. -/
theorem validate_coercion_failure_drops (kvs : List (String × Json)) (t : String)
    (h : (∃ k, k ∈ intCoercedFields ∧ ∃ v e, getKey kvs k = some v ∧ pyInt v = .error e) ∨
         (∃ v e, getKey kvs "temperature" = some v ∧ pyFloat v = .error e)) :
    process (some (.obj kvs)) t = none ∧
    pyInt Json.null = .error .typeError ∧
    pyFloat Json.null = .error .typeError ∧
    pyInt (Json.str "one-sixty") = .error .valueError ∧
    pyInt (Json.bool true) = .ok 1 ∧
    pyInt (Json.bool false) = .ok 0 := by
  refine ⟨?_, rfl, rfl, rfl, rfl, rfl⟩
  rcases h with ⟨k, hk, v, e, hv, hc⟩ | ⟨v, e, hv, hc⟩
  · exact drop_of_int_coercion_failure kvs t k v e hk hv hc
  · exact drop_of_float_coercion_failure kvs t v e hv hc

theorem validate_coercion_failure_drops_witness :
    process (some (.obj (setKey exampleKvs "spo2" Json.null))) "T4" = none ∧
    pyInt Json.null = .error .typeError ∧
    pyFloat Json.null = .error .typeError ∧
    pyInt (Json.str "one-sixty") = .error .valueError ∧
    pyInt (Json.bool true) = .ok 1 ∧
    pyInt (Json.bool false) = .ok 0 :=
  validate_coercion_failure_drops (setKey exampleKvs "spo2" Json.null) "T4"
    (Or.inl ⟨"spo2", by decide, Json.null, .typeError, rfl, rfl⟩)

/-- C5: a JSON object from which any one of the seven required keys is
absent is dropped, whatever the other keys hold. -/
theorem validate_missing_key_drops (kvs : List (String × Json)) (t : String) (k : String)
    (hk : k ∈ requiredKeys) (habs : containsKey kvs k = false) :
    process (some (.obj kvs)) t = none :=
  drop_of_missing kvs t k hk habs

theorem validate_missing_key_drops_witness :
    process (some (.obj (eraseKey exampleKvs "temperature"))) "T6" = none :=
  validate_missing_key_drops (eraseKey exampleKvs "temperature") "T6" "temperature"
    (by decide) (by decide)

/-- C6: a failed decode/parse stage yields no output; a top-level JSON
value that is not an object yields no output; and every exception raised
inside the body is converted by the handler to no output, so no exception
escapes the validator. -/
theorem validate_parse_failures_drop (t : String) (j : Json) (o : Option Json) (e : PyExc) :
    process none t = none ∧
    (Json.isObj j = false → process (some j) t = none) ∧
    (processBody o t = .error e → process o t = none) := by
  refine ⟨rfl, ?_, ?_⟩
  · intro hobj
    cases j with
    | null => rfl
    | bool b => rfl
    | int n => rfl
    | float q => rfl
    | str s =>
      cases hb : requiredKeys.all (fun k => hasSubL k.data s.data) with
      | false => simp [process, processBody, allContains_str, hb]
      | true => simp [process, processBody, allContains_str, hb, pyIndex]
    | arr xs =>
      cases hb : requiredKeys.all
          (fun k => xs.any (fun x => match x with | .str s => s == k | _ => false)) with
      | false => simp [process, processBody, allContains_arr, hb]
      | true => simp [process, processBody, allContains_arr, hb, pyIndex]
    | obj kvs => simp [Json.isObj] at hobj
  · intro he
    simp [process, he]

theorem validate_parse_failures_drop_witness :
    process none "T7" = none ∧ process (some (.arr [])) "T7" = none ∧
    process (some (.int 3)) "T7" = none := by
  obtain ⟨h1, h2, h3⟩ := validate_parse_failures_drop "T7" (.arr []) (some (.int 3)) .typeError
  exact ⟨h1, h2 rfl, h3 rfl⟩

/-- C7 counterexample: the null-field strategy may pick `event_ts`
(`random.choice` over all seven required fields), and a payload whose
`event_ts` is `null` is accepted — the validator never inspects
`event_ts` — contradicting the claim that every allowed field choice
yields no output. -/
theorem inject_null_event_ts_accepted_cex :
    process (some (.obj (injectNullField exampleKvs "event_ts"))) "T8" =
      some { event_ts := .null, patient_id := 5, heart_rate := 80,
             temperature := Rat.divInt 493 5, bp_diastolic := 70, bp_systolic := 120,
             spo2 := 97, ingest_ts := "T8" } := rfl

/-- C7 (amended): on an otherwise-valid payload, deleting any required
field drops the record; nulling any required field other than `event_ts`
drops it (nulling `event_ts` is accepted); `heart_rate = -1`,
`spo2 = 150` and `bp_systolic = "one-sixty"` all drop it. -/
theorem inject_strategies_drop (kvs : List (String × Json)) (t t2 : String)
    (r : VitalsRecord) (_hacc : process (some (.obj kvs)) t = some r)
    (k : String) (hk : k ∈ simRequiredFields) :
    process (some (.obj (injectDeleteField kvs k))) t2 = none ∧
    (k ≠ "event_ts" → process (some (.obj (injectNullField kvs k))) t2 = none) ∧
    process (some (.obj (injectNegativeValue kvs))) t2 = none ∧
    process (some (.obj (injectOutOfRange kvs))) t2 = none ∧
    process (some (.obj (injectBadType kvs))) t2 = none := by
  refine ⟨?_, ?_, ?_, ?_, ?_⟩
  · have hk2 : k ∈ requiredKeys := by
      simp only [simRequiredFields, List.mem_cons, List.not_mem_nil, or_false] at hk
      simp only [requiredKeys, List.mem_cons, List.not_mem_nil, or_false]
      tauto
    refine drop_of_missing _ t2 k hk2 ?_
    unfold injectDeleteField
    simp [containsKey, getKey_eraseKey]
  · intro hne
    have hk6 : k ∈ intCoercedFields ∨ k = "temperature" := by
      simp only [simRequiredFields, List.mem_cons, List.not_mem_nil, or_false] at hk
      simp only [intCoercedFields, List.mem_cons, List.not_mem_nil, or_false]
      rcases hk with rfl | rfl | rfl | rfl | rfl | rfl | rfl <;> tauto
    rcases hk6 with hk6 | rfl
    · exact drop_of_int_coercion_failure _ t2 k Json.null .typeError hk6
        (getKey_setKey_self kvs k Json.null) rfl
    · exact drop_of_float_coercion_failure _ t2 Json.null .typeError
        (getKey_setKey_self kvs "temperature" Json.null) rfl
  · exact drop_of_bad_heart_rate _ t2 (.int (-1)) (-1)
      (getKey_setKey_self kvs "heart_rate" (.int (-1))) rfl (by decide)
  · exact drop_of_bad_spo2 _ t2 (.int 150) 150
      (getKey_setKey_self kvs "spo2" (.int 150)) rfl (by decide)
  · exact drop_of_int_coercion_failure _ t2 "bp_systolic" (.str "one-sixty") .valueError
      (by decide) (getKey_setKey_self kvs "bp_systolic" (.str "one-sixty")) rfl

theorem inject_strategies_drop_witness :
    process (some (.obj (injectDeleteField exampleKvs "spo2"))) "T9" = none ∧
    process (some (.obj (injectNullField exampleKvs "spo2"))) "T9" = none ∧
    process (some (.obj (injectNegativeValue exampleKvs))) "T9" = none ∧
    process (some (.obj (injectOutOfRange exampleKvs))) "T9" = none ∧
    process (some (.obj (injectBadType exampleKvs))) "T9" = none := by
  obtain ⟨h1, h2, h3, h4, h5⟩ := inject_strategies_drop exampleKvs "T0" "T9"
    (exampleRecord "T0") rfl "spo2" (by decide)
  exact ⟨h1, h2 (by decide), h3, h4, h5⟩

/-- C8: the validator's accept/drop decision and every produced field
except `ingest_ts` are a function of the parse outcome alone; two runs on
the same input agree everywhere but `ingest_ts`, which equals each run's
clock reading. -/
theorem validate_deterministic_up_to_ingest (o : Option Json) (t1 t2 : String) :
    (process o t1 = none ↔ process o t2 = none) ∧
    (∀ r1 r2, process o t1 = some r1 → process o t2 = some r2 →
      r1.event_ts = r2.event_ts ∧ r1.patient_id = r2.patient_id ∧
      r1.heart_rate = r2.heart_rate ∧ r1.temperature = r2.temperature ∧
      r1.bp_diastolic = r2.bp_diastolic ∧ r1.bp_systolic = r2.bp_systolic ∧
      r1.spo2 = r2.spo2 ∧ r1.ingest_ts = t1 ∧ r2.ingest_ts = t2) := by
  have key : ∀ s1 s2 : String, process o s1 = none → process o s2 = none := by
    intro s1 s2 h1
    cases hp : process o s2 with
    | none => rfl
    | some r2 =>
      have h3 := accept_retime o s2 s1 r2 hp
      rw [h3] at h1
      exact Option.noConfusion h1
  refine ⟨⟨key t1 t2, key t2 t1⟩, ?_⟩
  intro r1 r2 h1 h2
  have h3 := accept_retime o t1 t2 r1 h1
  rw [h2] at h3
  injection h3 with h4
  obtain ⟨kvs, vts, vpid, vhr, vtmp, vbd, vbs, vsp, ho, g1, g2, g3, g4, g5, g6, g7,
    c1, c2, c3, c4, c5, c6, hev, hin, q1, q2, q3, q4, q5, q6⟩ :=
    accept_inversion o t1 r1 h1
  subst h4
  exact ⟨rfl, rfl, rfl, rfl, rfl, rfl, rfl, hin, rfl⟩

theorem validate_deterministic_up_to_ingest_witness :
    (process (some exampleObj) "TA" = none ↔ process (some exampleObj) "TB" = none) ∧
    ((exampleRecord "TA").event_ts = (exampleRecord "TB").event_ts ∧
     (exampleRecord "TA").patient_id = (exampleRecord "TB").patient_id ∧
     (exampleRecord "TA").heart_rate = (exampleRecord "TB").heart_rate ∧
     (exampleRecord "TA").temperature = (exampleRecord "TB").temperature ∧
     (exampleRecord "TA").bp_diastolic = (exampleRecord "TB").bp_diastolic ∧
     (exampleRecord "TA").bp_systolic = (exampleRecord "TB").bp_systolic ∧
     (exampleRecord "TA").spo2 = (exampleRecord "TB").spo2 ∧
     (exampleRecord "TA").ingest_ts = "TA" ∧ (exampleRecord "TB").ingest_ts = "TB") :=
  ⟨(validate_deterministic_up_to_ingest (some exampleObj) "TA" "TB").1,
   (validate_deterministic_up_to_ingest (some exampleObj) "TA" "TB").2
     (exampleRecord "TA") (exampleRecord "TB") rfl rfl⟩

/-- C9 counterexample: with `STREAM_INTERVAL=nan` the bare `float()` on
line 179 yields NaN, which is not greater than zero
(`pyLt (finite 0) nan = false`), yet the fail-fast check
`stream_interval <= 0` on line 186 is also false for NaN, so the
generator does not exit: the checks return `ok` and the process goes on
to create the publisher - a partial start, refuting the claim that a
non-positive publish interval always exits immediately. -/
theorem startup_nan_interval_not_failfast_cex :
    pyLt (PyFloat.finite 0) PyFloat.nan = false ∧
    simStartupChecks 30 PyFloat.nan (PyFloat.finite (Rat.divInt 1 10)) "mixed" "delete" =
      .ok () :=
  ⟨rfl, rfl⟩

/-- C9 (amended): startup configuration errors are exactly the startup
exits; the pipeline exits iff the subscription or table identifier is
empty (`os.getenv` default), and the generator exits iff the patient
count is not positive, the publish interval compares `<= 0` under Python
float ordering (a NaN interval compares false against every bound, so it
is not greater than zero and still does not exit), the error rate fails
the `0 <= r <= 1` check under Python ordering (a NaN rate does exit), or
the error mode or missing-field style is outside its enumerated domain;
both checks run before any work starts. -/
theorem startup_config_failfast :
    (∀ sub table : String,
      isErr (pipelineStartup sub table) = true ↔ (sub = "" ∨ table = "")) ∧
    (∀ (pc : Int) (si er : PyFloat) (em mfs : String),
      isErr (simStartupChecks pc si er em mfs) = true ↔
        (pc ≤ 0 ∨ pyLe si (.finite 0) = true ∨
         ¬(pyLe (.finite 0) er = true ∧ pyLe er (.finite 1) = true) ∨
         ¬(em ∈ errorModes) ∨ ¬(mfs ∈ missingFieldStyles))) := by
  constructor
  · intro sub table
    by_cases h : sub = "" ∨ table = "" <;> simp [pipelineStartup, h, isErr]
  · intro pc si er em mfs
    by_cases h1 : pc ≤ 0 <;> by_cases h2 : pyLe si (.finite 0) = true <;>
      by_cases h3 : pyLe (.finite 0) er = true ∧ pyLe er (.finite 1) = true <;>
      by_cases h4 : em ∈ errorModes <;> by_cases h5 : mfs ∈ missingFieldStyles <;>
      simp [simStartupChecks, isErr, h1, h2, h3, h4, h5]

theorem startup_config_failfast_witness :
    isErr (pipelineStartup "" "proj.dataset.table") = true ∧
    isErr (simStartupChecks 0 (PyFloat.finite 1) (PyFloat.finite (Rat.divInt 1 10))
      "mixed" "delete") = true :=
  ⟨(startup_config_failfast.1 "" "proj.dataset.table").mpr (Or.inl rfl),
   (startup_config_failfast.2 0 (PyFloat.finite 1) (PyFloat.finite (Rat.divInt 1 10))
      "mixed" "delete").mpr (Or.inl (by decide))⟩

/-- C10: the validator never inspects `event_ts`: whatever JSON value it
holds (null, number, array, object, ...), an otherwise-valid object is
accepted and the output's `event_ts` is that value verbatim. -/
theorem validate_event_ts_passthrough
    (kvs : List (String × Json)) (t : String) (v : Json)
    (vpid vhr vtmp vbd vbs vsp : Json) (pid hr bd bs sp : Int) (temp : Rat)
    (hts : getKey kvs "event_ts" = some v)
    (hpid : getKey kvs "patient_id" = some vpid)
    (hhr : getKey kvs "heart_rate" = some vhr)
    (htmp : getKey kvs "temperature" = some vtmp)
    (hbd : getKey kvs "bp_diastolic" = some vbd)
    (hbs : getKey kvs "bp_systolic" = some vbs)
    (hsp : getKey kvs "spo2" = some vsp)
    (cpid : pyInt vpid = .ok pid) (chr : pyInt vhr = .ok hr)
    (ctmp : pyFloat vtmp = .ok temp) (cbd : pyInt vbd = .ok bd)
    (cbs : pyInt vbs = .ok bs) (csp : pyInt vsp = .ok sp)
    (rpid : 0 < pid ∧ pid ≤ 10000) (rhr : 30 ≤ hr ∧ hr ≤ 220)
    (rtmp : 85 ≤ temp ∧ temp ≤ 110) (rbd : 30 ≤ bd ∧ bd ≤ 150)
    (rbs : 50 ≤ bs ∧ bs ≤ 250) (rsp : 50 ≤ sp ∧ sp ≤ 100) :
    ∃ r, process (some (.obj kvs)) t = some r ∧ r.event_ts = v :=
  ⟨_, accept_of_valid kvs t v vpid vhr vtmp vbd vbs vsp pid hr bd bs sp temp
      hts hpid hhr htmp hbd hbs hsp cpid chr ctmp cbd cbs csp
      rpid rhr rtmp rbd rbs rsp, rfl⟩

theorem validate_event_ts_passthrough_witness :
    ∃ r, process (some (.obj (setKey exampleKvs "event_ts" (.arr [])))) "TC" = some r ∧
      r.event_ts = .arr [] :=
  validate_event_ts_passthrough (setKey exampleKvs "event_ts" (.arr [])) "TC" (.arr [])
    (.int 5) (.int 80) (.float (Rat.divInt 493 5)) (.int 70) (.int 120) (.int 97)
    5 80 70 120 97 (Rat.divInt 493 5)
    rfl rfl rfl rfl rfl rfl rfl rfl rfl rfl rfl rfl rfl
    (by decide) (by decide) (by decide) (by decide) (by decide) (by decide)

/-- C4: starting from any accepted record, pinning one bounded field to
either endpoint of its closed interval keeps the record accepted, and
moving it one unit outside either endpoint drops it - 12 accepted edges
and 12 rejected neighbours. -/
theorem validate_boundary_exactness (kvs : List (String × Json)) (t : String)
    (r : VitalsRecord) (hacc : process (some (.obj kvs)) t = some r) :
    ((process (some (.obj (setKey kvs "patient_id" (.int 1)))) t).isSome = true) ∧
    ((process (some (.obj (setKey kvs "patient_id" (.int 10000)))) t).isSome = true) ∧
    (process (some (.obj (setKey kvs "patient_id" (.int 0)))) t = none) ∧
    (process (some (.obj (setKey kvs "patient_id" (.int 10001)))) t = none) ∧
    ((process (some (.obj (setKey kvs "heart_rate" (.int 30)))) t).isSome = true) ∧
    ((process (some (.obj (setKey kvs "heart_rate" (.int 220)))) t).isSome = true) ∧
    (process (some (.obj (setKey kvs "heart_rate" (.int 29)))) t = none) ∧
    (process (some (.obj (setKey kvs "heart_rate" (.int 221)))) t = none) ∧
    ((process (some (.obj (setKey kvs "temperature" (.float 85)))) t).isSome = true) ∧
    ((process (some (.obj (setKey kvs "temperature" (.float 110)))) t).isSome = true) ∧
    (process (some (.obj (setKey kvs "temperature" (.float 84)))) t = none) ∧
    (process (some (.obj (setKey kvs "temperature" (.float 111)))) t = none) ∧
    ((process (some (.obj (setKey kvs "bp_diastolic" (.int 30)))) t).isSome = true) ∧
    ((process (some (.obj (setKey kvs "bp_diastolic" (.int 150)))) t).isSome = true) ∧
    (process (some (.obj (setKey kvs "bp_diastolic" (.int 29)))) t = none) ∧
    (process (some (.obj (setKey kvs "bp_diastolic" (.int 151)))) t = none) ∧
    ((process (some (.obj (setKey kvs "bp_systolic" (.int 50)))) t).isSome = true) ∧
    ((process (some (.obj (setKey kvs "bp_systolic" (.int 250)))) t).isSome = true) ∧
    (process (some (.obj (setKey kvs "bp_systolic" (.int 49)))) t = none) ∧
    (process (some (.obj (setKey kvs "bp_systolic" (.int 251)))) t = none) ∧
    ((process (some (.obj (setKey kvs "spo2" (.int 50)))) t).isSome = true) ∧
    ((process (some (.obj (setKey kvs "spo2" (.int 100)))) t).isSome = true) ∧
    (process (some (.obj (setKey kvs "spo2" (.int 49)))) t = none) ∧
    (process (some (.obj (setKey kvs "spo2" (.int 101)))) t = none) := by
  obtain ⟨vts, vpid, vhr, vtmp, vbd, vbs, vsp, g1, g2, g3, g4, g5, g6, g7,
    c1, c2, c3, c4, c5, c6, hev, hin, q1, q2, q3, q4, q5, q6⟩ :=
    accept_inversion_obj kvs t r hacc
  refine ⟨?_, ?_, ?_, ?_, ?_, ?_, ?_, ?_, ?_, ?_, ?_, ?_, ?_, ?_, ?_, ?_, ?_, ?_,
    ?_, ?_, ?_, ?_, ?_, ?_⟩
  · rw [accept_of_valid (setKey kvs "patient_id" (.int 1)) t vts (.int 1) vhr vtmp vbd vbs vsp
      1 r.heart_rate r.bp_diastolic r.bp_systolic r.spo2 r.temperature
      ((getKey_setKey_ne (by decide)).trans g1) (getKey_setKey_self kvs "patient_id" (.int 1))
      ((getKey_setKey_ne (by decide)).trans g3) ((getKey_setKey_ne (by decide)).trans g4)
      ((getKey_setKey_ne (by decide)).trans g5) ((getKey_setKey_ne (by decide)).trans g6)
      ((getKey_setKey_ne (by decide)).trans g7) rfl c2 c3 c4 c5 c6 (by decide) q2 q3 q4 q5 q6]
    rfl
  · rw [accept_of_valid (setKey kvs "patient_id" (.int 10000)) t vts (.int 10000) vhr vtmp vbd
      vbs vsp 10000 r.heart_rate r.bp_diastolic r.bp_systolic r.spo2 r.temperature
      ((getKey_setKey_ne (by decide)).trans g1) (getKey_setKey_self kvs "patient_id" (.int 10000))
      ((getKey_setKey_ne (by decide)).trans g3) ((getKey_setKey_ne (by decide)).trans g4)
      ((getKey_setKey_ne (by decide)).trans g5) ((getKey_setKey_ne (by decide)).trans g6)
      ((getKey_setKey_ne (by decide)).trans g7) rfl c2 c3 c4 c5 c6 (by decide) q2 q3 q4 q5 q6]
    rfl
  · exact drop_of_bad_patient_id (setKey kvs "patient_id" (.int 0)) t (.int 0) 0
      (getKey_setKey_self kvs "patient_id" (.int 0)) rfl (by decide)
  · exact drop_of_bad_patient_id (setKey kvs "patient_id" (.int 10001)) t (.int 10001) 10001
      (getKey_setKey_self kvs "patient_id" (.int 10001)) rfl (by decide)
  · rw [accept_of_valid (setKey kvs "heart_rate" (.int 30)) t vts vpid (.int 30) vtmp vbd vbs vsp
      r.patient_id 30 r.bp_diastolic r.bp_systolic r.spo2 r.temperature
      ((getKey_setKey_ne (by decide)).trans g1) ((getKey_setKey_ne (by decide)).trans g2)
      (getKey_setKey_self kvs "heart_rate" (.int 30)) ((getKey_setKey_ne (by decide)).trans g4)
      ((getKey_setKey_ne (by decide)).trans g5) ((getKey_setKey_ne (by decide)).trans g6)
      ((getKey_setKey_ne (by decide)).trans g7) c1 rfl c3 c4 c5 c6 q1 (by decide) q3 q4 q5 q6]
    rfl
  · rw [accept_of_valid (setKey kvs "heart_rate" (.int 220)) t vts vpid (.int 220) vtmp vbd vbs
      vsp r.patient_id 220 r.bp_diastolic r.bp_systolic r.spo2 r.temperature
      ((getKey_setKey_ne (by decide)).trans g1) ((getKey_setKey_ne (by decide)).trans g2)
      (getKey_setKey_self kvs "heart_rate" (.int 220)) ((getKey_setKey_ne (by decide)).trans g4)
      ((getKey_setKey_ne (by decide)).trans g5) ((getKey_setKey_ne (by decide)).trans g6)
      ((getKey_setKey_ne (by decide)).trans g7) c1 rfl c3 c4 c5 c6 q1 (by decide) q3 q4 q5 q6]
    rfl
  · exact drop_of_bad_heart_rate (setKey kvs "heart_rate" (.int 29)) t (.int 29) 29
      (getKey_setKey_self kvs "heart_rate" (.int 29)) rfl (by decide)
  · exact drop_of_bad_heart_rate (setKey kvs "heart_rate" (.int 221)) t (.int 221) 221
      (getKey_setKey_self kvs "heart_rate" (.int 221)) rfl (by decide)
  · rw [accept_of_valid (setKey kvs "temperature" (.float 85)) t vts vpid vhr (.float 85) vbd vbs
      vsp r.patient_id r.heart_rate r.bp_diastolic r.bp_systolic r.spo2 85
      ((getKey_setKey_ne (by decide)).trans g1) ((getKey_setKey_ne (by decide)).trans g2)
      ((getKey_setKey_ne (by decide)).trans g3) (getKey_setKey_self kvs "temperature" (.float 85))
      ((getKey_setKey_ne (by decide)).trans g5) ((getKey_setKey_ne (by decide)).trans g6)
      ((getKey_setKey_ne (by decide)).trans g7) c1 c2 rfl c4 c5 c6 q1 q2 (by decide) q4 q5 q6]
    rfl
  · rw [accept_of_valid (setKey kvs "temperature" (.float 110)) t vts vpid vhr (.float 110) vbd
      vbs vsp r.patient_id r.heart_rate r.bp_diastolic r.bp_systolic r.spo2 110
      ((getKey_setKey_ne (by decide)).trans g1) ((getKey_setKey_ne (by decide)).trans g2)
      ((getKey_setKey_ne (by decide)).trans g3) (getKey_setKey_self kvs "temperature" (.float 110))
      ((getKey_setKey_ne (by decide)).trans g5) ((getKey_setKey_ne (by decide)).trans g6)
      ((getKey_setKey_ne (by decide)).trans g7) c1 c2 rfl c4 c5 c6 q1 q2 (by decide) q4 q5 q6]
    rfl
  · exact drop_of_bad_temperature (setKey kvs "temperature" (.float 84)) t (.float 84) 84
      (getKey_setKey_self kvs "temperature" (.float 84)) rfl (by decide)
  · exact drop_of_bad_temperature (setKey kvs "temperature" (.float 111)) t (.float 111) 111
      (getKey_setKey_self kvs "temperature" (.float 111)) rfl (by decide)
  · rw [accept_of_valid (setKey kvs "bp_diastolic" (.int 30)) t vts vpid vhr vtmp (.int 30) vbs
      vsp r.patient_id r.heart_rate 30 r.bp_systolic r.spo2 r.temperature
      ((getKey_setKey_ne (by decide)).trans g1) ((getKey_setKey_ne (by decide)).trans g2)
      ((getKey_setKey_ne (by decide)).trans g3) ((getKey_setKey_ne (by decide)).trans g4)
      (getKey_setKey_self kvs "bp_diastolic" (.int 30)) ((getKey_setKey_ne (by decide)).trans g6)
      ((getKey_setKey_ne (by decide)).trans g7) c1 c2 c3 rfl c5 c6 q1 q2 q3 (by decide) q5 q6]
    rfl
  · rw [accept_of_valid (setKey kvs "bp_diastolic" (.int 150)) t vts vpid vhr vtmp (.int 150) vbs
      vsp r.patient_id r.heart_rate 150 r.bp_systolic r.spo2 r.temperature
      ((getKey_setKey_ne (by decide)).trans g1) ((getKey_setKey_ne (by decide)).trans g2)
      ((getKey_setKey_ne (by decide)).trans g3) ((getKey_setKey_ne (by decide)).trans g4)
      (getKey_setKey_self kvs "bp_diastolic" (.int 150)) ((getKey_setKey_ne (by decide)).trans g6)
      ((getKey_setKey_ne (by decide)).trans g7) c1 c2 c3 rfl c5 c6 q1 q2 q3 (by decide) q5 q6]
    rfl
  · exact drop_of_bad_bp_diastolic (setKey kvs "bp_diastolic" (.int 29)) t (.int 29) 29
      (getKey_setKey_self kvs "bp_diastolic" (.int 29)) rfl (by decide)
  · exact drop_of_bad_bp_diastolic (setKey kvs "bp_diastolic" (.int 151)) t (.int 151) 151
      (getKey_setKey_self kvs "bp_diastolic" (.int 151)) rfl (by decide)
  · rw [accept_of_valid (setKey kvs "bp_systolic" (.int 50)) t vts vpid vhr vtmp vbd (.int 50)
      vsp r.patient_id r.heart_rate r.bp_diastolic 50 r.spo2 r.temperature
      ((getKey_setKey_ne (by decide)).trans g1) ((getKey_setKey_ne (by decide)).trans g2)
      ((getKey_setKey_ne (by decide)).trans g3) ((getKey_setKey_ne (by decide)).trans g4)
      ((getKey_setKey_ne (by decide)).trans g5) (getKey_setKey_self kvs "bp_systolic" (.int 50))
      ((getKey_setKey_ne (by decide)).trans g7) c1 c2 c3 c4 rfl c6 q1 q2 q3 q4 (by decide) q6]
    rfl
  · rw [accept_of_valid (setKey kvs "bp_systolic" (.int 250)) t vts vpid vhr vtmp vbd (.int 250)
      vsp r.patient_id r.heart_rate r.bp_diastolic 250 r.spo2 r.temperature
      ((getKey_setKey_ne (by decide)).trans g1) ((getKey_setKey_ne (by decide)).trans g2)
      ((getKey_setKey_ne (by decide)).trans g3) ((getKey_setKey_ne (by decide)).trans g4)
      ((getKey_setKey_ne (by decide)).trans g5) (getKey_setKey_self kvs "bp_systolic" (.int 250))
      ((getKey_setKey_ne (by decide)).trans g7) c1 c2 c3 c4 rfl c6 q1 q2 q3 q4 (by decide) q6]
    rfl
  · exact drop_of_bad_bp_systolic (setKey kvs "bp_systolic" (.int 49)) t (.int 49) 49
      (getKey_setKey_self kvs "bp_systolic" (.int 49)) rfl (by decide)
  · exact drop_of_bad_bp_systolic (setKey kvs "bp_systolic" (.int 251)) t (.int 251) 251
      (getKey_setKey_self kvs "bp_systolic" (.int 251)) rfl (by decide)
  · rw [accept_of_valid (setKey kvs "spo2" (.int 50)) t vts vpid vhr vtmp vbd vbs (.int 50)
      r.patient_id r.heart_rate r.bp_diastolic r.bp_systolic 50 r.temperature
      ((getKey_setKey_ne (by decide)).trans g1) ((getKey_setKey_ne (by decide)).trans g2)
      ((getKey_setKey_ne (by decide)).trans g3) ((getKey_setKey_ne (by decide)).trans g4)
      ((getKey_setKey_ne (by decide)).trans g5) ((getKey_setKey_ne (by decide)).trans g6)
      (getKey_setKey_self kvs "spo2" (.int 50)) c1 c2 c3 c4 c5 rfl q1 q2 q3 q4 q5 (by decide)]
    rfl
  · rw [accept_of_valid (setKey kvs "spo2" (.int 100)) t vts vpid vhr vtmp vbd vbs (.int 100)
      r.patient_id r.heart_rate r.bp_diastolic r.bp_systolic 100 r.temperature
      ((getKey_setKey_ne (by decide)).trans g1) ((getKey_setKey_ne (by decide)).trans g2)
      ((getKey_setKey_ne (by decide)).trans g3) ((getKey_setKey_ne (by decide)).trans g4)
      ((getKey_setKey_ne (by decide)).trans g5) ((getKey_setKey_ne (by decide)).trans g6)
      (getKey_setKey_self kvs "spo2" (.int 100)) c1 c2 c3 c4 c5 rfl q1 q2 q3 q4 q5 (by decide)]
    rfl
  · exact drop_of_bad_spo2 (setKey kvs "spo2" (.int 49)) t (.int 49) 49
      (getKey_setKey_self kvs "spo2" (.int 49)) rfl (by decide)
  · exact drop_of_bad_spo2 (setKey kvs "spo2" (.int 101)) t (.int 101) 101
      (getKey_setKey_self kvs "spo2" (.int 101)) rfl (by decide)

theorem validate_boundary_exactness_witness :
    ((process (some (.obj (setKey exampleKvs "patient_id" (.int 1)))) "T5").isSome = true) ∧
    ((process (some (.obj (setKey exampleKvs "patient_id" (.int 10000)))) "T5").isSome = true) ∧
    (process (some (.obj (setKey exampleKvs "patient_id" (.int 0)))) "T5" = none) ∧
    (process (some (.obj (setKey exampleKvs "patient_id" (.int 10001)))) "T5" = none) ∧
    ((process (some (.obj (setKey exampleKvs "heart_rate" (.int 30)))) "T5").isSome = true) ∧
    ((process (some (.obj (setKey exampleKvs "heart_rate" (.int 220)))) "T5").isSome = true) ∧
    (process (some (.obj (setKey exampleKvs "heart_rate" (.int 29)))) "T5" = none) ∧
    (process (some (.obj (setKey exampleKvs "heart_rate" (.int 221)))) "T5" = none) ∧
    ((process (some (.obj (setKey exampleKvs "temperature" (.float 85)))) "T5").isSome = true) ∧
    ((process (some (.obj (setKey exampleKvs "temperature" (.float 110)))) "T5").isSome = true) ∧
    (process (some (.obj (setKey exampleKvs "temperature" (.float 84)))) "T5" = none) ∧
    (process (some (.obj (setKey exampleKvs "temperature" (.float 111)))) "T5" = none) ∧
    ((process (some (.obj (setKey exampleKvs "bp_diastolic" (.int 30)))) "T5").isSome = true) ∧
    ((process (some (.obj (setKey exampleKvs "bp_diastolic" (.int 150)))) "T5").isSome = true) ∧
    (process (some (.obj (setKey exampleKvs "bp_diastolic" (.int 29)))) "T5" = none) ∧
    (process (some (.obj (setKey exampleKvs "bp_diastolic" (.int 151)))) "T5" = none) ∧
    ((process (some (.obj (setKey exampleKvs "bp_systolic" (.int 50)))) "T5").isSome = true) ∧
    ((process (some (.obj (setKey exampleKvs "bp_systolic" (.int 250)))) "T5").isSome = true) ∧
    (process (some (.obj (setKey exampleKvs "bp_systolic" (.int 49)))) "T5" = none) ∧
    (process (some (.obj (setKey exampleKvs "bp_systolic" (.int 251)))) "T5" = none) ∧
    ((process (some (.obj (setKey exampleKvs "spo2" (.int 50)))) "T5").isSome = true) ∧
    ((process (some (.obj (setKey exampleKvs "spo2" (.int 100)))) "T5").isSome = true) ∧
    (process (some (.obj (setKey exampleKvs "spo2" (.int 49)))) "T5" = none) ∧
    (process (some (.obj (setKey exampleKvs "spo2" (.int 101)))) "T5" = none) :=
  validate_boundary_exactness exampleKvs "T5" (exampleRecord "T5") rfl
